import Mathlib

/-!
Verification of the trigger-and-modality session controller in `app/page.tsx`.

The controller is a single-threaded, event-driven state machine: inbound
transport events and UI button handlers mutate a small amount of session
state (agent state, playback flag, transcript cache) and emit outbound
protocol commands.  We embed each handler as a pure function from session
state to a new state plus the list of commands it emits; `setTimeout`
callbacks are modelled as explicitly scheduled deferred tasks that a later
`timerFire` step runs.  Real-time delays (100 ms deferral, 5000 ms grace)
are abstracted to the task itself; the millisecond constants are kept as
definitions for reference.
-/

namespace S2S

/-- Agent state, from the `AgentState` union in `page.tsx`. -/
inductive AgentState
  | idle
  | listening
  | generating
  | speaking
deriving DecidableEq

/-- Output modality of the remote session (`output_modalities` field). -/
inductive Modality
  | text
  | audio
deriving DecidableEq

/-- Outbound commands sent via `transport.sendEvent` or to the playback sink.
`configureSession` is the initial `session.update` sent on `session.created`;
`setModality` is a `session.update` that only switches `output_modalities`;
`createResponse` is `response.create` (the payload the code builds has an
`instructions` string; the optional context list mirrors the interface the
spec describes, so that a payload without one is `none`); `cancelResponse`
is `response.cancel`; `stopSink` is `player.interrupt()`; `enqueueAudio` is
`player.add16BitPCM`. -/
inductive OutCmd
  | configureSession
  | setModality (m : Modality)
  | createResponse (instructions : String) (context : Option (List String))
  | cancelResponse
  | stopSink
  | enqueueAudio (itemId : String)
deriving DecidableEq

/-- Deferred tasks created with `setTimeout` in `page.tsx`: the 100 ms
deferred `response.create`, and the 5000 ms grace timer scheduled on
`response.done`. -/
inductive Deferred
  | sendCreateResponse (instructions : String)
  | graceTimer
deriving DecidableEq

/-- Configuration, from `VoiceSettings` in `SettingsPanel.tsx`. -/
structure VoiceSettings where
  quickHintPhrase : String
  fullGuidancePhrase : String
  interruptPhrases : List String
  quickHintDuration : Nat
  fullGuidanceDuration : Nat
deriving DecidableEq

/-- The mutable session state of `page.tsx`: `isConnected`, `agentState`,
the `isPlayingAudio` ref, the `transcriptCache` map (modelled as an
association list where the head is the most recent write), the rolling
`conversationHistory`, and the queue of scheduled deferred tasks. -/
structure SessionState where
  isConnected : Bool
  agentState : AgentState
  isPlayingAudio : Bool
  transcriptCache : List (String × String)
  conversationHistory : List String
  pending : List Deferred
deriving DecidableEq

/-- JavaScript `s.toLowerCase()`, modelled per character (the phrases and
transcripts involved are plain text). -/
def toLowerCase (s : String) : String := ⟨s.data.map Char.toLower⟩

/-- Does the first character list start with the second? -/
def startsWith : List Char → List Char → Bool
  | _, [] => true
  | [], _ :: _ => false
  | c :: cs, d :: ds => c == d && startsWith cs ds

/-- Does the second character list occur contiguously inside the first? -/
def containsSeq : List Char → List Char → Bool
  | [], sub => startsWith [] sub
  | c :: rest, sub => startsWith (c :: rest) sub || containsSeq rest sub

/-- JavaScript `hay.includes(sub)`: substring containment. -/
def includes (hay sub : String) : Bool :=
  containsSeq hay.data sub.data

/-- `Map.get` on the transcript cache: the most recent binding for a key. -/
def cacheGet (cache : List (String × String)) (k : String) : Option String :=
  match cache.find? (fun p => p.1 == k) with
  | some p => some p.2
  | none => none

/-- The interrupt-phrase check from the transcription handler:
`settings.interruptPhrases.some(p => textLower.includes(p.toLowerCase()))`. -/
def interruptMatch (cfg : VoiceSettings) (t : String) : Bool :=
  cfg.interruptPhrases.any (fun p => includes (toLowerCase t) (toLowerCase p))

/-- `textLower.includes(settings.quickHintPhrase.toLowerCase())`. -/
def quickMatch (cfg : VoiceSettings) (t : String) : Bool :=
  includes (toLowerCase t) (toLowerCase cfg.quickHintPhrase)

/-- `textLower.includes(settings.fullGuidancePhrase.toLowerCase())`. -/
def fullMatch (cfg : VoiceSettings) (t : String) : Bool :=
  includes (toLowerCase t) (toLowerCase cfg.fullGuidancePhrase)

/-- Primitive actions of a handler body, used to record the order in which
`interruptAgent` performs its state writes and its outbound I/O. -/
inductive Act
  | writeFlag (b : Bool)
  | writeMode (m : AgentState)
  | emit (c : OutCmd)
deriving DecidableEq

/-- Interpret a list of primitive actions over the session state. -/
def runActs (s : SessionState) : List Act → SessionState × List OutCmd
  | [] => (s, [])
  | Act.writeFlag b :: rest => runActs { s with isPlayingAudio := b } rest
  | Act.writeMode m :: rest => runActs { s with agentState := m } rest
  | Act.emit c :: rest =>
      let r := runActs s rest
      (r.1, c :: r.2)

/-- The body of `interruptAgent()` as its ordered list of primitive actions.
Guards: `if (!session.current || !isConnected) return;` and
`if (!isPlayingAudio.current && agentState !== 'speaking' && agentState !== 'generating') return;`.
An accepted interrupt first clears the playing flag and sets the state to
`listening`, then stops the playback sink, then sends `response.cancel`,
then switches the session back to text modality. -/
def interruptActs (s : SessionState) : List Act :=
  if s.isConnected = false then []
  else if s.isPlayingAudio = false ∧ s.agentState ≠ AgentState.speaking ∧
      s.agentState ≠ AgentState.generating then []
  else
    [Act.writeFlag false, Act.writeMode AgentState.listening,
     Act.emit OutCmd.stopSink, Act.emit OutCmd.cancelResponse,
     Act.emit (OutCmd.setModality Modality.text)]

/-- `interruptAgent()` from `page.tsx`. -/
def interruptAgent (s : SessionState) : SessionState × List OutCmd :=
  runActs s (interruptActs s)

/-- The instruction string built in the voice-trigger path of the
transcription handler. -/
def voiceInstructions (cfg : VoiceSettings) (quickHintDetected : Bool) : String :=
  "RESPOND IN ENGLISH ONLY. Provide a " ++
    (if quickHintDetected then "quick hint" else "full guidance") ++
    " (around " ++
    toString (if quickHintDetected then cfg.quickHintDuration else cfg.fullGuidanceDuration) ++
    " seconds) based on the conversation context. " ++
    (if quickHintDetected then "Be brief and actionable, 1-2 sentences."
     else "Be comprehensive with steps and examples.")

/-- The instruction string built in `triggerQuickHint()`. -/
def manualQuickHintInstructions (cfg : VoiceSettings) : String :=
  "RESPOND IN ENGLISH ONLY. Provide a quick hint (around " ++
    toString cfg.quickHintDuration ++
    " seconds) based on the recent conversation context. Be brief and actionable, 1-2 sentences."

/-- The instruction string built in `triggerFullGuidance()`. -/
def manualFullGuidanceInstructions (cfg : VoiceSettings) : String :=
  "RESPOND IN ENGLISH ONLY. Provide full guidance (around " ++
    toString cfg.fullGuidanceDuration ++
    " seconds) based on the entire conversation context. Be comprehensive with steps and examples."

/-- Delay of the deferred `response.create` in milliseconds. -/
def responseCreateDelayMs : Nat := 100

/-- Delay of the playback grace timer scheduled on `response.done`. -/
def graceDelayMs : Nat := 5000

/-- Handler for `conversation.item.input_audio_transcription.completed`.
`if (transcript)` guards against the empty transcript; interrupt phrases
are checked first and fire only while speaking or generating; otherwise
quick-hint and full-guidance phrases are tested, a busy agent ignores the
trigger, and an accepted trigger sets `generating`, sends the audio
modality switch and schedules the deferred `response.create`. -/
def onTranscriptionCompleted (cfg : VoiceSettings) (s : SessionState)
    (transcript : String) : SessionState × List OutCmd :=
  if transcript = "" then (s, [])
  else
    let interruptDetected := interruptMatch cfg transcript
    if interruptDetected &&
        (s.agentState == AgentState.speaking || s.agentState == AgentState.generating) then
      interruptAgent s
    else
      let quickHintDetected := quickMatch cfg transcript
      let fullGuidanceDetected := fullMatch cfg transcript
      if quickHintDetected || fullGuidanceDetected then
        if s.agentState == AgentState.generating || s.agentState == AgentState.speaking then
          (s, [])
        else
          ({ s with agentState := AgentState.generating,
                    pending := s.pending ++
                      [Deferred.sendCreateResponse (voiceInstructions cfg quickHintDetected)] },
           [OutCmd.setModality Modality.audio])
      else (s, [])

/-- `triggerQuickHint()` from `page.tsx` (manual button). -/
def triggerQuickHint (cfg : VoiceSettings) (s : SessionState) :
    SessionState × List OutCmd :=
  if s.isConnected = false then (s, [])
  else if s.agentState == AgentState.generating || s.agentState == AgentState.speaking then
    (s, [])
  else
    ({ s with agentState := AgentState.generating,
              pending := s.pending ++
                [Deferred.sendCreateResponse (manualQuickHintInstructions cfg)] },
     [OutCmd.setModality Modality.audio])

/-- `triggerFullGuidance()` from `page.tsx` (manual button). -/
def triggerFullGuidance (cfg : VoiceSettings) (s : SessionState) :
    SessionState × List OutCmd :=
  if s.isConnected = false then (s, [])
  else if s.agentState == AgentState.generating || s.agentState == AgentState.speaking then
    (s, [])
  else
    ({ s with agentState := AgentState.generating,
              pending := s.pending ++
                [Deferred.sendCreateResponse (manualFullGuidanceInstructions cfg)] },
     [OutCmd.setModality Modality.audio])

/-- Handler for `input_audio_buffer.speech_started`: barge-in interrupts
when audio is playing or the agent is speaking or generating. -/
def onSpeechStarted (s : SessionState) : SessionState × List OutCmd :=
  if s.isPlayingAudio || s.agentState == AgentState.speaking ||
      s.agentState == AgentState.generating then
    interruptAgent s
  else (s, [])

/-- Handler for `response.created`: `setAgentState('generating')`. -/
def onResponseCreated (s : SessionState) : SessionState × List OutCmd :=
  ({ s with agentState := AgentState.generating }, [])

/-- Handler for `response.output_audio.delta`: state becomes `speaking`,
the playing flag is set, and the fragment is enqueued on the sink. -/
def onAudioDelta (s : SessionState) (itemId : String) : SessionState × List OutCmd :=
  ({ s with agentState := AgentState.speaking, isPlayingAudio := true },
   [OutCmd.enqueueAudio itemId])

/-- Handler for `response.output_audio_transcript.done`:
`if (itemId && transcript) transcriptCache.set(itemId, transcript)`. -/
def onOutputAudioTranscriptDone (s : SessionState) (itemId transcript : String) :
    SessionState :=
  if itemId ≠ "" ∧ transcript ≠ "" then
    { s with transcriptCache := (itemId, transcript) :: s.transcriptCache }
  else s

/-- Handler for `response.done`: switch the session back to text modality
immediately and schedule the 5-second grace timer.  The agent state and the
playing flag are not touched here. -/
def onResponseDone (s : SessionState) : SessionState × List OutCmd :=
  ({ s with pending := s.pending ++ [Deferred.graceTimer] },
   [OutCmd.setModality Modality.text])

/-- The `error` transport-event handler.  The third component records
whether the error is surfaced to the error log: the two known-benign codes
return early without logging an error, all others are logged; no branch
touches session state or sends a command. -/
def onTransportError (code : String) (s : SessionState) :
    SessionState × List OutCmd × Bool :=
  if code = "input_audio_buffer_commit_empty" then (s, [], false)
  else if code = "response_cancel_not_active" then (s, [], false)
  else (s, [], true)

/-- The machine-readable error codes the handlers treat as known-benign:
the empty-commit error at session start and the no-active-response error
after the completion/interrupt race. -/
def benignErrorCodes : List String :=
  ["input_audio_buffer_commit_empty", "response_cancel_not_active"]

/-- Run a deferred task.  The deferred `response.create` sends the command
unconditionally (the `setTimeout` body in `page.tsx` performs no check of
the current agent state); the payload carries only the instruction string,
so its context field is `none`.  The grace timer clears the playing flag
unconditionally and moves `speaking` to `listening`, leaving any other
state unchanged. -/
def runDeferred (d : Deferred) (s : SessionState) : SessionState × List OutCmd :=
  match d with
  | Deferred.sendCreateResponse instructions =>
      (s, [OutCmd.createResponse instructions none])
  | Deferred.graceTimer =>
      ({ s with isPlayingAudio := false,
                agentState :=
                  if s.agentState == AgentState.speaking then AgentState.listening
                  else s.agentState }, [])

/-- Per-content display text for `output_audio` content in the
`history_updated` handler:
`content.transcript || transcriptCache.get(item.itemId) || ''`. -/
def resolvedOutputAudioText (cache : List (String × String))
    (itemId eventTranscript : String) : String :=
  if eventTranscript ≠ "" then eventTranscript
  else (cacheGet cache itemId).getD ""

/-- Inbound occurrences driving the controller: transport events, the UI
entry points, and the firing of a scheduled deferred task (identified by
its index in the pending queue). -/
inductive Event
  | sessionCreated
  | transcriptCompleted (transcript : String)
  | speechStarted
  | responseCreated
  | audioDelta (itemId : String)
  | audioTranscriptDone (itemId transcript : String)
  | responseDone
  | errorEvent (code : String)
  | manualQuickHint
  | manualFullGuidance
  | manualInterrupt
  | timerFire (n : Nat)

/-- One handler invocation. -/
def step (cfg : VoiceSettings) (s : SessionState) : Event → SessionState × List OutCmd
  | Event.sessionCreated => (s, [OutCmd.configureSession])
  | Event.transcriptCompleted t => onTranscriptionCompleted cfg s t
  | Event.speechStarted => onSpeechStarted s
  | Event.responseCreated => onResponseCreated s
  | Event.audioDelta i => onAudioDelta s i
  | Event.audioTranscriptDone i t => (onOutputAudioTranscriptDone s i t, [])
  | Event.responseDone => onResponseDone s
  | Event.errorEvent code => ((onTransportError code s).1, (onTransportError code s).2.1)
  | Event.manualQuickHint => triggerQuickHint cfg s
  | Event.manualFullGuidance => triggerFullGuidance cfg s
  | Event.manualInterrupt => interruptAgent s
  | Event.timerFire n =>
      match s.pending.get? n with
      | none => (s, [])
      | some d => runDeferred d { s with pending := s.pending.eraseIdx n }

/-- Run a sequence of handler invocations, concatenating emitted commands. -/
def run (cfg : VoiceSettings) (s : SessionState) : List Event → SessionState × List OutCmd
  | [] => (s, [])
  | e :: es =>
      let r := step cfg s e
      let r2 := run cfg r.1 es
      (r2.1, r.2 ++ r2.2)

/-- Adjacency of the entry-into-generating command pair in an emitted
command stream: every audio modality switch is immediately followed by a
`createResponse`. -/
def wellPaired : List OutCmd → Bool
  | [] => true
  | OutCmd.setModality Modality.audio :: OutCmd.createResponse _ _ :: rest => wellPaired rest
  | OutCmd.setModality Modality.audio :: _ => false
  | _ :: rest => wellPaired rest

/-- `DEFAULT_SETTINGS` from `page.tsx`. -/
def defaultSettings : VoiceSettings :=
  { quickHintPhrase := "good question"
    fullGuidancePhrase := "let me think"
    interruptPhrases := ["got it"]
    quickHintDuration := 10
    fullGuidanceDuration := 20 }

/-- A freshly connected session: connected, initial agent state `idle`,
nothing playing, empty caches, no pending timers. -/
def startState : SessionState :=
  { isConnected := true
    agentState := AgentState.idle
    isPlayingAudio := false
    transcriptCache := []
    conversationHistory := []
    pending := [] }

/-- A connected session with some accumulated user-utterance history, used
to exercise the context-window claims. -/
def historyState : SessionState :=
  { startState with
      agentState := AgentState.listening
      conversationHistory := ["alpha", "beta", "gamma", "delta"] }

/-- The agent is busy: a response is in flight or being spoken. -/
def busy (s : SessionState) : Bool :=
  s.agentState == AgentState.generating || s.agentState == AgentState.speaking

/-- Modelled from the spec: the context window the spec assigns to a
short (quick-hint) trigger, the last 3 user utterances of the rolling
window.  The code builds no such payload field; this definition exists
only to compare the spec's interface against the emitted command. -/
def specQuickHintContext (history : List String) : List String :=
  history.drop (history.length - 3)

/-- Modelled from the spec: the context window the spec assigns to a
full-guidance trigger, the entire rolling window. -/
def specFullGuidanceContext (history : List String) : List String :=
  history


/-! ## Helper lemmas -/

/-- The interrupt check only depends on the lower-cased transcript. -/
theorem interruptMatch_congr (cfg : VoiceSettings) {t t' : String}
    (h : toLowerCase t = toLowerCase t') : interruptMatch cfg t = interruptMatch cfg t' := by
  simp only [interruptMatch, h]

/-- The quick-hint check only depends on the lower-cased transcript. -/
theorem quickMatch_congr (cfg : VoiceSettings) {t t' : String}
    (h : toLowerCase t = toLowerCase t') : quickMatch cfg t = quickMatch cfg t' := by
  simp only [quickMatch, h]

/-- The full-guidance check only depends on the lower-cased transcript. -/
theorem fullMatch_congr (cfg : VoiceSettings) {t t' : String}
    (h : toLowerCase t = toLowerCase t') : fullMatch cfg t = fullMatch cfg t' := by
  simp only [fullMatch, h]

/-! ## Claims -/

/-- C3: invoking interrupt twice in immediate succession produces exactly
the state changes of a single interrupt: applied to the state left by any
first invocation, a second `interruptAgent` returns that state unchanged
and emits no command (no duplicate cancel or modality switch). -/
theorem interrupt_idempotent (s : SessionState) :
    interruptAgent ((interruptAgent s).1) = ((interruptAgent s).1, []) := by
  obtain ⟨c, a, p, tc, ch, pd⟩ := s
  cases c <;> cases p <;> cases a <;> rfl

/-- C5: an accepted interrupt performs, in this order: clear the
playback-liveness flag and set mode to listening (the two state writes come
first, before any outbound I/O), then stop-and-discard on the playback
sink, then cancel-response, then set-output-modality(text).  The action
list records the order of the writes and emissions; the final state and
command list are as the claim requires. -/
theorem interrupt_state_before_io (s : SessionState)
    (hc : s.isConnected = true)
    (h : s.isPlayingAudio = true ∨ busy s = true) :
    interruptActs s =
      [Act.writeFlag false, Act.writeMode AgentState.listening,
       Act.emit OutCmd.stopSink, Act.emit OutCmd.cancelResponse,
       Act.emit (OutCmd.setModality Modality.text)] ∧
    (interruptAgent s).1.isPlayingAudio = false ∧
    (interruptAgent s).1.agentState = AgentState.listening ∧
    (interruptAgent s).2 =
      [OutCmd.stopSink, OutCmd.cancelResponse, OutCmd.setModality Modality.text] := by
  obtain ⟨c, a, p, tc, ch, pd⟩ := s
  simp only at hc
  subst hc
  cases p <;> cases a <;> simp_all [busy, interruptActs, interruptAgent, runActs]

/-- C5 witness: interrupting a speaking session. -/
theorem interrupt_state_before_io_witness :
    (interruptAgent { startState with agentState := AgentState.speaking }).2 =
      [OutCmd.stopSink, OutCmd.cancelResponse, OutCmd.setModality Modality.text] :=
  (interrupt_state_before_io { startState with agentState := AgentState.speaking }
    (by decide) (Or.inr (by decide))).2.2.2

/-- C9: the error handler is a pure sink: for every error event it leaves
session state untouched and emits no command; the two known-benign codes
(empty commit at session start, no-active-response after the
completion/interrupt race) are suppressed without surfacing, all other
codes are surfaced to the log only. -/
theorem benign_errors_suppressed (code : String) (s : SessionState) :
    (onTransportError code s).1 = s ∧
    (onTransportError code s).2.1 = [] ∧
    (onTransportError code s).2.2 = !(benignErrorCodes.contains code) := by
  unfold onTransportError benignErrorCodes
  by_cases h1 : code = "input_audio_buffer_commit_empty" <;>
    by_cases h2 : code = "response_cancel_not_active" <;>
      simp [h1, h2, List.contains]

/-- C10: on response-finished the handler immediately emits
set-output-modality(text), leaves the mode and the playing flag untouched,
and schedules the 5-second grace timer; the grace timer clears the playing
flag unconditionally and moves the mode to listening exactly when it is
still speaking, leaving any other mode unchanged. -/
theorem response_done_grace (s : SessionState) :
    (onResponseDone s).2 = [OutCmd.setModality Modality.text] ∧
    (onResponseDone s).1.agentState = s.agentState ∧
    (onResponseDone s).1.isPlayingAudio = s.isPlayingAudio ∧
    (onResponseDone s).1.pending = s.pending ++ [Deferred.graceTimer] ∧
    graceDelayMs = 5000 ∧
    (runDeferred Deferred.graceTimer s).1.isPlayingAudio = false ∧
    (runDeferred Deferred.graceTimer s).1.agentState =
      (if s.agentState = AgentState.speaking then AgentState.listening else s.agentState) ∧
    (runDeferred Deferred.graceTimer s).2 = [] := by
  obtain ⟨c, a, p, tc, ch, pd⟩ := s
  refine ⟨rfl, rfl, rfl, rfl, rfl, rfl, ?_, rfl⟩
  cases a <;> rfl

/-- C1: while the agent is generating or speaking, trigger events are
ignored: both manual trigger entry points return without changing state or
emitting anything, a resolved transcript that does not hit an interrupt
phrase leaves the state unchanged and emits nothing, and in every case a
busy-state transcript event schedules no deferred response and emits
neither set-output-modality(audio) nor any create-response — so no second
response is ever started while one is in flight. -/
theorem busy_triggers_ignored (cfg : VoiceSettings) (s : SessionState) (t : String)
    (hb : busy s = true) :
    triggerQuickHint cfg s = (s, []) ∧
    triggerFullGuidance cfg s = (s, []) ∧
    (interruptMatch cfg t = false → onTranscriptionCompleted cfg s t = (s, [])) ∧
    (onTranscriptionCompleted cfg s t).1.pending = s.pending ∧
    (∀ c ∈ (onTranscriptionCompleted cfg s t).2,
      c ≠ OutCmd.setModality Modality.audio ∧ ∀ i ctx, c ≠ OutCmd.createResponse i ctx) := by
  obtain ⟨c, a, p, tc, ch, pd⟩ := s
  simp only [busy] at hb
  by_cases ht : t = "" <;>
    cases him : interruptMatch cfg t <;>
      cases hq : quickMatch cfg t <;>
        cases hf : fullMatch cfg t <;>
          cases c <;> cases p <;> cases a <;>
            simp_all [triggerQuickHint, triggerFullGuidance, onTranscriptionCompleted,
              interruptAgent, interruptActs, runActs]

/-- C1 witness: a quick-hint button press while generating is a no-op. -/
theorem busy_triggers_ignored_witness :
    triggerQuickHint defaultSettings { startState with agentState := AgentState.generating } =
      ({ startState with agentState := AgentState.generating }, []) :=
  (busy_triggers_ignored defaultSettings
    { startState with agentState := AgentState.generating } "good question" (by decide)).1

/-- C7: detection on a resolved transcript is case-insensitive substring
matching; interrupt phrases are checked first and, matching while busy,
divert to the interrupt controller with trigger matching skipped; otherwise
the quick-hint phrase is checked before the full-guidance phrase and the
first match wins; a turn fires at most one trigger (at most one deferred
response is scheduled); and the outcome depends only on the lower-cased
transcript. -/
theorem trigger_detection_priority (cfg : VoiceSettings) (s : SessionState) (t t' : String) :
    (t ≠ "" → interruptMatch cfg t = true → busy s = true →
      onTranscriptionCompleted cfg s t = interruptAgent s) ∧
    (t ≠ "" → busy s = false → quickMatch cfg t = true →
      onTranscriptionCompleted cfg s t =
        ({ s with agentState := AgentState.generating,
                  pending := s.pending ++
                    [Deferred.sendCreateResponse (voiceInstructions cfg true)] },
         [OutCmd.setModality Modality.audio])) ∧
    (t ≠ "" → busy s = false → quickMatch cfg t = false → fullMatch cfg t = true →
      onTranscriptionCompleted cfg s t =
        ({ s with agentState := AgentState.generating,
                  pending := s.pending ++
                    [Deferred.sendCreateResponse (voiceInstructions cfg false)] },
         [OutCmd.setModality Modality.audio])) ∧
    (interruptMatch cfg t = false → quickMatch cfg t = false → fullMatch cfg t = false →
      onTranscriptionCompleted cfg s t = (s, [])) ∧
    (t ≠ "" → t' ≠ "" → toLowerCase t = toLowerCase t' →
      onTranscriptionCompleted cfg s t = onTranscriptionCompleted cfg s t') ∧
    (onTranscriptionCompleted cfg s t).1.pending.length ≤ s.pending.length + 1 := by
  refine ⟨?_, ?_, ?_, ?_, ?_, ?_⟩
  · intro ht him hb
    obtain ⟨c, a, p, tc, ch, pd⟩ := s
    simp only [busy] at hb
    cases a <;> simp_all [onTranscriptionCompleted]
  · intro ht hb hq
    obtain ⟨c, a, p, tc, ch, pd⟩ := s
    simp only [busy] at hb
    cases a <;> cases him : interruptMatch cfg t <;>
      simp_all [onTranscriptionCompleted]
  · intro ht hb hq hf
    obtain ⟨c, a, p, tc, ch, pd⟩ := s
    simp only [busy] at hb
    cases a <;> cases him : interruptMatch cfg t <;>
      simp_all [onTranscriptionCompleted]
  · intro him hq hf
    by_cases ht : t = "" <;> simp_all [onTranscriptionCompleted]
  · intro ht ht' hl
    simp only [onTranscriptionCompleted, if_neg ht, if_neg ht',
      interruptMatch_congr cfg hl, quickMatch_congr cfg hl, fullMatch_congr cfg hl]
  · obtain ⟨c, a, p, tc, ch, pd⟩ := s
    by_cases ht : t = "" <;>
      cases him : interruptMatch cfg t <;>
        cases hq : quickMatch cfg t <;>
          cases hf : fullMatch cfg t <;>
            cases c <;> cases p <;> cases a <;>
              simp_all [onTranscriptionCompleted, interruptAgent, interruptActs, runActs]

/-- C7 witness: an interrupt phrase spoken while speaking diverts to the
interrupt controller. -/
theorem trigger_detection_priority_witness :
    onTranscriptionCompleted defaultSettings
        { startState with agentState := AgentState.speaking } "GOT IT" =
      interruptAgent { startState with agentState := AgentState.speaking } :=
  (trigger_detection_priority defaultSettings
    { startState with agentState := AgentState.speaking } "GOT IT" "").1
    (by decide) (by decide) (by decide)

/-- C8: the transcript cache is monotone: an update carrying an empty
value never changes the cache, a non-empty update is accepted and becomes
the value read back for that identifier (overwriting only
non-empty-to-non-empty), other identifiers are untouched; and the
displayed text for output audio prefers the transcript carried on the
event itself, falling back to the most recent cached value exactly when
the event carries none. -/
theorem transcript_cache_monotonic (s : SessionState) (cache : List (String × String))
    (itemId t et : String) :
    (onOutputAudioTranscriptDone s itemId "" = s) ∧
    (itemId ≠ "" → t ≠ "" →
      cacheGet (onOutputAudioTranscriptDone s itemId t).transcriptCache itemId = some t) ∧
    (itemId ≠ "" → t ≠ "" → ∀ k, k ≠ itemId →
      cacheGet (onOutputAudioTranscriptDone s itemId t).transcriptCache k =
        cacheGet s.transcriptCache k) ∧
    (et ≠ "" → resolvedOutputAudioText cache itemId et = et) ∧
    (resolvedOutputAudioText cache itemId "" = (cacheGet cache itemId).getD "") := by
  refine ⟨?_, ?_, ?_, ?_, ?_⟩
  · simp [onOutputAudioTranscriptDone]
  · intro hid htr
    simp [onOutputAudioTranscriptDone, hid, htr, cacheGet, List.find?]
  · intro hid htr k hk
    have hne : (itemId == k) = false := by
      simp only [beq_eq_false_iff_ne]
      exact fun h => hk h.symm
    simp [onOutputAudioTranscriptDone, hid, htr, cacheGet, List.find?, hne]
  · intro het
    simp [resolvedOutputAudioText, het]
  · simp [resolvedOutputAudioText]

/-- C8 witness: a non-empty transcript is cached and read back; an empty
event transcript falls back to the cache. -/
theorem transcript_cache_monotonic_witness :
    cacheGet (onOutputAudioTranscriptDone startState "turn1" "hello world").transcriptCache
        "turn1" = some "hello world" ∧
    resolvedOutputAudioText [("turn1", "hello world")] "turn1" "" = "hello world" :=
  ⟨(transcript_cache_monotonic startState [] "turn1" "hello world" "").2.1
      (by decide) (by decide),
    (transcript_cache_monotonic startState [("turn1", "hello world")] "turn1" "" "").2.2.2.2⟩

/-- C2 counterexample: the claimed no-interleaving guarantee fails.  A
voice trigger enters generating (first conjunct), but when a barge-in
arrives during the 100 ms deferral window the interrupt's three commands
are emitted between the audio modality switch and the deferred
create-response, so the emitted stream violates adjacency of the pair. -/
theorem entry_command_pair_counterexample :
    (run defaultSettings startState [Event.transcriptCompleted "good question"]).1.agentState =
      AgentState.generating ∧
    wellPaired (run defaultSettings startState
      [Event.transcriptCompleted "good question", Event.speechStarted,
       Event.timerFire 0]).2 = false := by
  exact ⟨by decide, by decide⟩

/-- C2 (amended): on an entry into generating the handler emits
set-output-modality(audio) at once and defers create-response; when no
other handler runs during the deferral window — the deferred timer fires
next — the commands emitted by the two steps are exactly
set-output-modality(audio) followed by create-response, in that order,
with nothing in between.  An interrupt firing inside the window may
interleave its own commands between the pair. -/
theorem entry_emits_modality_then_create (cfg : VoiceSettings) (s : SessionState) (t : String)
    (hpend : s.pending = []) (hb : busy s = false) (hc : s.isConnected = true)
    (ht : t ≠ "") (hq : quickMatch cfg t = true) :
    (run cfg s [Event.transcriptCompleted t, Event.timerFire 0]).2 =
      [OutCmd.setModality Modality.audio,
       OutCmd.createResponse (voiceInstructions cfg true) none] ∧
    (run cfg s [Event.manualQuickHint, Event.timerFire 0]).2 =
      [OutCmd.setModality Modality.audio,
       OutCmd.createResponse (manualQuickHintInstructions cfg) none] := by
  obtain ⟨c, a, p, tc, ch, pd⟩ := s
  dsimp only at hpend hc
  subst hpend hc
  simp only [busy] at hb
  cases a <;> cases him : interruptMatch cfg t <;>
    simp_all [run, step, onTranscriptionCompleted, triggerQuickHint, runDeferred]

/-- C2 witness: the quick-hint phrase from a quiet listening state. -/
theorem entry_emits_modality_then_create_witness :
    (run defaultSettings { startState with agentState := AgentState.listening }
        [Event.transcriptCompleted "good question", Event.timerFire 0]).2 =
      [OutCmd.setModality Modality.audio,
       OutCmd.createResponse (voiceInstructions defaultSettings true) none] :=
  (entry_emits_modality_then_create defaultSettings
    { startState with agentState := AgentState.listening } "good question"
    (by decide) (by decide) (by decide) (by decide) (by decide)).1

/-- C4 counterexample: the deferred create-response is not dropped by an
interrupt during the deferral window.  After the trigger and a manual
interrupt the mode is back to listening, yet when the deferred step fires
it still sends create-response — the emitted stream ends with the
create-response after the interrupt's cancel and modality commands. -/
theorem deferred_create_not_dropped_counterexample :
    (run defaultSettings startState
      [Event.transcriptCompleted "good question", Event.manualInterrupt]).1.agentState =
      AgentState.listening ∧
    (run defaultSettings startState
      [Event.transcriptCompleted "good question", Event.manualInterrupt,
       Event.timerFire 0]).2 =
      [OutCmd.setModality Modality.audio, OutCmd.stopSink, OutCmd.cancelResponse,
       OutCmd.setModality Modality.text,
       OutCmd.createResponse (voiceInstructions defaultSettings true) none] := by
  exact ⟨by decide, by decide⟩

/-- C4 (amended): the deferred create-response step performs no check of
the current mode: when it fires it sends the create-response command
unconditionally, in particular even when the mode is no longer generating
because an interrupt fired during the deferral window. -/
theorem deferred_create_unconditional (s : SessionState) (i : String)
    (_h : s.agentState ≠ AgentState.generating) :
    runDeferred (Deferred.sendCreateResponse i) s = (s, [OutCmd.createResponse i none]) := by
  rfl

/-- C4 witness: the deferred step fires on a listening session. -/
theorem deferred_create_unconditional_witness :
    runDeferred (Deferred.sendCreateResponse "hint")
        { startState with agentState := AgentState.listening } =
      ({ startState with agentState := AgentState.listening },
       [OutCmd.createResponse "hint" none]) :=
  deferred_create_unconditional
    { startState with agentState := AgentState.listening } "hint" (by decide)

/-- C6 counterexample: the create-response command emitted on a quick-hint
trigger carries no list of prior utterances at all.  With four utterances
in the rolling window the emitted payload is the bare instruction string
(context `none`), which differs from a payload carrying the last three
utterances as the claim requires. -/
theorem response_context_counterexample :
    (run defaultSettings historyState [Event.manualQuickHint, Event.timerFire 0]).2 =
      [OutCmd.setModality Modality.audio,
       OutCmd.createResponse (manualQuickHintInstructions defaultSettings) none] ∧
    specQuickHintContext historyState.conversationHistory = ["beta", "gamma", "delta"] ∧
    OutCmd.createResponse (manualQuickHintInstructions defaultSettings) none ≠
      OutCmd.createResponse (manualQuickHintInstructions defaultSettings)
        (some (specQuickHintContext historyState.conversationHistory)) := by
  exact ⟨by decide, by decide, by decide⟩

/-- C6 (amended): the create-response command carries only the
trigger-scoped instruction string — quick-hint wording with the quick-hint
duration, full-guidance wording with the full-guidance duration — and no
list of prior utterance texts; conversation context is supplied implicitly
by the remote session's own history. -/
theorem response_payload_instructions_only (cfg : VoiceSettings) (s : SessionState)
    (hc : s.isConnected = true) (hb : busy s = false) :
    (triggerQuickHint cfg s).1.pending =
      s.pending ++ [Deferred.sendCreateResponse (manualQuickHintInstructions cfg)] ∧
    (triggerFullGuidance cfg s).1.pending =
      s.pending ++ [Deferred.sendCreateResponse (manualFullGuidanceInstructions cfg)] ∧
    ∀ i s', runDeferred (Deferred.sendCreateResponse i) s' =
      (s', [OutCmd.createResponse i none]) := by
  obtain ⟨c, a, p, tc, ch, pd⟩ := s
  dsimp only at hc
  subst hc
  simp only [busy] at hb
  refine ⟨?_, ?_, fun i s' => rfl⟩ <;>
    cases a <;> simp_all [triggerQuickHint, triggerFullGuidance]

/-- C6 witness: a quick-hint button press schedules the bare instruction
payload. -/
theorem response_payload_instructions_only_witness :
    (triggerQuickHint defaultSettings historyState).1.pending =
      [Deferred.sendCreateResponse (manualQuickHintInstructions defaultSettings)] :=
  (response_payload_instructions_only defaultSettings historyState
    (by decide) (by decide)).1

end S2S
